import Mathlib

/-!
Verification of the holochain validation-and-integration pipeline core:
the tiered dependency resolver (`crates/holochain/src/core/sys_validate/present.rs`)
and the trigger-driven queue consumer scheduler
(`crates/holochain/src/core/queue_consumer.rs`), shallowly embedded in Lean.
-/

namespace Holochain

/-! ## Data model

Hashes are content addresses; the resolver only compares them for equality,
so we model every hash kind as `Nat`. -/

abbrev HeaderHash := Nat
abbrev EntryHash := Nat
abbrev AgentPubKey := Nat
abbrev AnyDhtHash := Nat

/-- A chain header.  The resolver inspects only whether a header converts to a
`CreateLink` (for `check_link_in_metadata`), so we keep the `CreateLink`
fields that feed `LinkMetaKey` and collapse every other header kind. -/
inductive Header where
  | CreateLink (base zomeId tag : Nat) : Header
  | Other (n : Nat) : Header
deriving DecidableEq

/-- `TryInto<CreateLink>` on a header: succeeds exactly on `CreateLink`. -/
def Header.toCreateLink : Header → Option (Nat × Nat × Nat)
  | .CreateLink base zomeId tag => some (base, zomeId, tag)
  | .Other _ => none

/-- The full link-metadata key `LinkMetaKey::from((&link_add, link_add_hash))`:
built from the `CreateLink` fields plus the link-add header hash. -/
structure LinkMetaKey where
  base : Nat
  zomeId : Nat
  tag : Nat
  linkAddHash : HeaderHash
deriving DecidableEq

/-- A signed, hashed header as stored in element stores. -/
structure SignedHeaderHashed where
  header : Header
  hash : HeaderHash
deriving DecidableEq

/-- An element: a signed header plus its entry payload.  `entry = none` models
`element.entry().as_option() == None` (entry hidden / not applicable / not
stored); `some n` models an accessible entry payload. -/
structure Element where
  signed_header : SignedHeaderHashed
  entry : Option Nat
deriving DecidableEq

/-- An element sub-store of one tier (`ElementBuf`): lookup of signed headers
and of full elements by header hash. -/
structure ElementBuf where
  get_header : HeaderHash → Option SignedHeaderHashed
  get_element : HeaderHash → Option Element

/-- A metadata sub-store of one tier (`MetadataBufT`): the three
cross-reference indices the resolver consults. -/
structure MetadataBuf where
  get_activity : AgentPubKey → List HeaderHash
  get_headers : EntryHash → List HeaderHash
  get_links_all : LinkMetaKey → List Nat

/-- The `ValidationOutcome` variants produced by the presence checks. -/
inductive ValidationOutcome where
  | NotHoldingDep (hash : AnyDhtHash)
  | DepMissingFromDht (hash : AnyDhtHash)
  | NotCreateLink (hash : HeaderHash)
deriving DecidableEq

/-- Modelled from the spec: the confidence-graded fact `Dependency<T>` of
`sys_validation_workflow/types.rs` (that file is not among the provided
sources; spec section 3 defines it).  Three confidence tags, ranked from
strongest to weakest: `Proof`, `Claim`, `PendingValidation`. -/
inductive Dependency (T : Type) where
  | Proof (t : T)
  | Claim (t : T)
  | PendingValidation (t : T)
deriving DecidableEq

/-- Payload of a graded fact (`Dependency::as_inner`). -/
def Dependency.as_inner {T : Type} : Dependency T → T
  | .Proof t => t
  | .Claim t => t
  | .PendingValidation t => t

/-- Weakness rank of a confidence tag: `Proof` strongest (0),
`PendingValidation` weakest (2). -/
def Dependency.rank {T : Type} : Dependency T → Nat
  | .Proof _ => 0
  | .Claim _ => 1
  | .PendingValidation _ => 2

/-- Modelled from the spec: the combinator `confidence_min` / `Dependency::min`
of `sys_validation_workflow/types.rs` (not among the provided sources).
Spec section 3: the result carries the weaker of the two confidence tags,
paired with the first operand's payload. -/
def Dependency.min {T U : Type} (a : Dependency T) (b : Dependency U) : Dependency T :=
  match a, b with
  | .Proof t, .Proof _ => .Proof t
  | .Proof t, .Claim _ => .Claim t
  | .Proof t, .PendingValidation _ => .PendingValidation t
  | .Claim t, .Proof _ => .Claim t
  | .Claim t, .Claim _ => .Claim t
  | .Claim t, .PendingValidation _ => .PendingValidation t
  | .PendingValidation t, _ => .PendingValidation t

/-- Modelled from the spec: the per-invocation `CheckLevel` policy of
`sys_validation_workflow/types.rs` (not among the provided sources; spec
section 3: only authoritative evidence vs. network claims acceptable). -/
inductive CheckLevel where
  | Proof
  | Claim
deriving DecidableEq

/-- The validation workspace: the three tiers' element and metadata
sub-stores (`SysValidationWorkspace`). -/
structure SysValidationWorkspace where
  element_vault : ElementBuf
  element_judged : ElementBuf
  element_pending : ElementBuf
  meta_vault : MetadataBuf
  meta_judged : MetadataBuf
  meta_pending : MetadataBuf

/-- The network cascade collaborator, as the resolver consumes it:
fetch-by-identity returning an optional signed header or element. -/
structure Network where
  retrieve_header : HeaderHash → Option SignedHeaderHashed
  retrieve : AnyDhtHash → Option Element

/-! ## Presence checks (`sys_validate/present.rs`)

`SysValidationResult<T>` is `Except ValidationOutcome T`: the only errors the
functions below produce or inspect are `ValidationOutcome` variants. -/

/-- `check_holding_header`: look the header up in one tier's element store. -/
def check_holding_header (hash : HeaderHash) (element_vault : ElementBuf) :
    Except ValidationOutcome SignedHeaderHashed :=
  match element_vault.get_header hash with
  | some sh => .ok sh
  | none => .error (.NotHoldingDep hash)

/-- `check_holding_element`: look the element up in one tier's element store
and additionally require its entry payload to be accessible. -/
def check_holding_element (hash : HeaderHash) (element_vault : ElementBuf) :
    Except ValidationOutcome Element :=
  match element_vault.get_element hash with
  | none => .error (.NotHoldingDep hash)
  | some el =>
    match el.entry with
    | none => .error (.NotHoldingDep hash)
    | some _ => .ok el

/-- `check_holding_entry`: resolve the entry hash to its first referencing
header via the tier's metadata store, then fetch that element. -/
def check_holding_entry (hash : EntryHash) (element_vault : ElementBuf)
    (meta_vault : MetadataBuf) : Except ValidationOutcome Element :=
  match (meta_vault.get_headers hash).head? with
  | none => .error (.NotHoldingDep hash)
  | some entry_header =>
    match element_vault.get_element entry_header with
    | none => .error (.NotHoldingDep hash)
    | some el => .ok el

/-- `check_prev_header_in_metadata`: the previous header hash must appear in
the author's chain activity in this tier's metadata store. -/
def check_prev_header_in_metadata (author : AgentPubKey)
    (prev_header_hash : HeaderHash) (meta_vault : MetadataBuf) :
    Except ValidationOutcome Unit :=
  match (meta_vault.get_activity author).find? (fun a => prev_header_hash = a) with
  | some _ => .ok ()
  | none => .error (.NotHoldingDep prev_header_hash)

/-- `check_header_in_metadata`: the header hash must appear among the headers
referencing the entry in this tier's metadata store. -/
def check_header_in_metadata (entry_hash : EntryHash) (header_hash : HeaderHash)
    (meta_vault : MetadataBuf) : Except ValidationOutcome Unit :=
  match (meta_vault.get_headers entry_hash).find? (fun h => h = header_hash) with
  | some _ => .ok ()
  | none => .error (.NotHoldingDep header_hash)

/-- `check_link_in_metadata`: the header must convert to a `CreateLink`
(otherwise `NotCreateLink`); the full link key must have at least one link in
this tier's metadata store (otherwise `NotHoldingDep`). -/
def check_link_in_metadata (link_add : Header) (link_add_hash : HeaderHash)
    (meta_vault : MetadataBuf) : Except ValidationOutcome Unit :=
  match link_add.toCreateLink with
  | none => .error (.NotCreateLink link_add_hash)
  | some (base, zomeId, tag) =>
    match (meta_vault.get_links_all ⟨base, zomeId, tag, link_add_hash⟩).head? with
    | some _ => .ok ()
    | none => .error (.NotHoldingDep link_add_hash)

/-- One arm of the `check_holding!` macro: run one tier's check; on success
wrap the value with that tier's confidence tag and stop; on `NotHoldingDep`
fall through to the rest; propagate any other error. -/
def check_holding_step {T : Type} (r : Except ValidationOutcome T)
    (dep : T → Dependency T) (rest : Except ValidationOutcome (Dependency T)) :
    Except ValidationOutcome (Dependency T) :=
  match r with
  | .ok e => .ok (dep e)
  | .error (.NotHoldingDep _) => rest
  | .error e => .error e

/-- `check_holding_header_inner`: the `check_holding_el!` tier walk for
headers — vault as `Proof`, judged as `Proof`, pending as
`PendingValidation`, else `NotHoldingDep`. -/
def check_holding_header_inner (hash : HeaderHash)
    (workspace : SysValidationWorkspace) :
    Except ValidationOutcome (Dependency SignedHeaderHashed) :=
  check_holding_step (check_holding_header hash workspace.element_vault) .Proof
    (check_holding_step (check_holding_header hash workspace.element_judged) .Proof
      (check_holding_step (check_holding_header hash workspace.element_pending)
        .PendingValidation
        (.error (.NotHoldingDep hash))))

/-- `check_header_exists`: the same tier walk, then fall back to the network
cascade — a fetched header is a `Claim`, a miss is `DepMissingFromDht`. -/
def check_header_exists (hash : HeaderHash) (workspace : SysValidationWorkspace)
    (network : Network) :
    Except ValidationOutcome (Dependency SignedHeaderHashed) :=
  check_holding_step (check_holding_header hash workspace.element_vault) .Proof
    (check_holding_step (check_holding_header hash workspace.element_judged) .Proof
      (check_holding_step (check_holding_header hash workspace.element_pending)
        .PendingValidation
        (match network.retrieve_header hash with
         | some h => .ok (.Claim h)
         | none => .error (.DepMissingFromDht hash))))

/-- `check_holding_header_all`: dispatch on the requested check level. -/
def check_holding_header_all (hash : HeaderHash)
    (workspace : SysValidationWorkspace) (network : Network)
    (check_level : CheckLevel) :
    Except ValidationOutcome (Dependency SignedHeaderHashed) :=
  match check_level with
  | .Proof => check_holding_header_inner hash workspace
  | .Claim => check_header_exists hash workspace network

/-- `check_holding_element_inner`: the `check_holding_el!` tier walk for
elements. -/
def check_holding_element_inner (hash : HeaderHash)
    (workspace : SysValidationWorkspace) :
    Except ValidationOutcome (Dependency Element) :=
  check_holding_step (check_holding_element hash workspace.element_vault) .Proof
    (check_holding_step (check_holding_element hash workspace.element_judged) .Proof
      (check_holding_step (check_holding_element hash workspace.element_pending)
        .PendingValidation
        (.error (.NotHoldingDep hash))))

/-- `check_prev_header_in_metadata_all`: the `check_holding_meta!` tier walk
for author chain activity. -/
def check_prev_header_in_metadata_all (author : AgentPubKey)
    (prev_header_hash : HeaderHash) (workspace : SysValidationWorkspace) :
    Except ValidationOutcome (Dependency Unit) :=
  check_holding_step
    (check_prev_header_in_metadata author prev_header_hash workspace.meta_vault) .Proof
    (check_holding_step
      (check_prev_header_in_metadata author prev_header_hash workspace.meta_judged) .Proof
      (check_holding_step
        (check_prev_header_in_metadata author prev_header_hash workspace.meta_pending)
        .PendingValidation
        (.error (.NotHoldingDep prev_header_hash))))

/-- `check_link_in_metadata_all`: the `check_holding_meta!` tier walk for
link metadata. -/
def check_link_in_metadata_all (link_add : Header) (header_hash : HeaderHash)
    (workspace : SysValidationWorkspace) :
    Except ValidationOutcome (Dependency Unit) :=
  check_holding_step
    (check_link_in_metadata link_add header_hash workspace.meta_vault) .Proof
    (check_holding_step
      (check_link_in_metadata link_add header_hash workspace.meta_judged) .Proof
      (check_holding_step
        (check_link_in_metadata link_add header_hash workspace.meta_pending)
        .PendingValidation
        (.error (.NotHoldingDep header_hash))))

/-- `check_holding_prev_header_inner`: composite check — the previous header
must be in the author's chain metadata and held as an element; the composite
confidence is the weaker of the two legs. -/
def check_holding_prev_header_inner (author : AgentPubKey)
    (prev_header_hash : HeaderHash) (workspace : SysValidationWorkspace) :
    Except ValidationOutcome (Dependency SignedHeaderHashed) :=
  match check_prev_header_in_metadata_all author prev_header_hash workspace with
  | .error e => .error e
  | .ok dep =>
    match check_holding_header_inner prev_header_hash workspace with
    | .error e => .error e
    | .ok h => .ok (h.min dep)

/-- `check_holding_link_add_inner`: composite check — the link-add header must
be held as an element and its link must be in the metadata; the composite
confidence is the weaker of the two legs. -/
def check_holding_link_add_inner (header_hash : HeaderHash)
    (workspace : SysValidationWorkspace) :
    Except ValidationOutcome (Dependency SignedHeaderHashed) :=
  match check_holding_header_inner header_hash workspace with
  | .error e => .error e
  | .ok dep =>
    match check_link_in_metadata_all dep.as_inner.header header_hash workspace with
    | .error e => .error e
    | .ok meta_dep => .ok (dep.min meta_dep)

/-! ## Trigger channel and queue consumers (`queue_consumer.rs`)

A trigger channel is a bounded tokio mpsc channel of `()` signals.  Its
observable state is the number of queued signals, the capacity, and whether
either side has been dropped. -/

/-- State of one trigger channel.  `senders_closed`: every `TriggerSender`
clone has been dropped (what `listen` observes as closed);
`receiver_closed`: the `TriggerReceiver` has been dropped (what `trigger`
observes as closed). -/
structure ChannelState where
  cap : Nat
  queue : Nat
  senders_closed : Bool
  receiver_closed : Bool
deriving DecidableEq

/-- `TriggerSender::trigger`: non-blocking `try_send`.  A closed channel is
logged and ignored; a full channel succeeds silently (a queued signal already
guarantees a wakeup); otherwise one signal is enqueued. -/
def trigger (s : ChannelState) : ChannelState :=
  if s.receiver_closed then s
  else if s.cap ≤ s.queue then s
  else { s with queue := s.queue + 1 }

/-- Iterate `trigger` N times. -/
def triggerN : Nat → ChannelState → ChannelState
  | 0, s => s
  | n + 1, s => triggerN n (trigger s)

/-- The only error possible on the listening side: the channel is closed. -/
inductive QueueTriggerClosedError where
  | mk
deriving DecidableEq

/-- The drain loop inside `listen`: repeatedly `try_recv` the `n` remaining
queued signals; on `Empty` return `Ok(())`, on `Closed` return the
closed-channel error. -/
def listen_drain : Nat → Bool → Except QueueTriggerClosedError Unit
  | 0, true => .error .mk
  | 0, false => .ok ()
  | n + 1, closed => listen_drain n closed

/-- `TriggerReceiver::listen`: await one signal, then drain the channel.
`none` means the call suspends (empty queue, senders still alive); `some`
carries the result and the post-call channel state. -/
def listen (s : ChannelState) :
    Option (Except QueueTriggerClosedError Unit × ChannelState) :=
  match s.queue with
  | 0 => if s.senders_closed then some (.error .mk, s) else none
  | n + 1 => some (listen_drain n s.senders_closed, { s with queue := 0 })

/-- Inform a workflow to run a job or shutdown. -/
inductive Job where
  | Run
  | Shutdown
deriving DecidableEq

/-- `next_job_or_exit`: `futures::future::select(next_job, kill)` polls its
first argument (the `listen` future) first, so when both futures are ready
the `Left` (listen) branch is taken.  `Left(Err(_))` and `Right(_)` map to
`Job::Shutdown`, `Left(Ok(()))` to `Job::Run`.  `stop_ready` says whether the
shutdown broadcast has a signal ready; `none` means the stage keeps
suspending (neither future ready). -/
def next_job_or_exit (s : ChannelState) (stop_ready : Bool) :
    Option (Job × ChannelState) :=
  match listen s with
  | some (.error _, s') => some (Job.Shutdown, s')
  | some (.ok _, s') => some (Job.Run, s')
  | none => if stop_ready then some (Job.Shutdown, s) else none

/-! ## Initial queue triggers (`InitialQueueTriggers`)

`initialize_workflows` (modelled here as `initWorkflows`) takes the clone's
own `Option<Arc<Once>>` and runs the five-trigger fan-out through the shared
`Once`.  We count the `trigger()` invocations per stage channel. -/

/-- Number of `trigger()` calls fired on each of the five stage channels. -/
structure TriggerCallCounts where
  sys_validation : Nat
  app_validation : Nat
  publish_dht_ops : Nat
  integrate_dht_ops : Nat
  produce_dht_ops : Nat
deriving DecidableEq

/-- No trigger fired yet. -/
def TriggerCallCounts.zero : TriggerCallCounts := ⟨0, 0, 0, 0, 0⟩

/-- Each of the five stage triggers fired exactly once. -/
def TriggerCallCounts.ones : TriggerCallCounts := ⟨1, 1, 1, 1, 1⟩

/-- The fan-out body of `initialize_workflows`: fire each stage trigger once. -/
def TriggerCallCounts.fire_all (c : TriggerCallCounts) : TriggerCallCounts :=
  ⟨c.sys_validation + 1, c.app_validation + 1, c.publish_dht_ops + 1,
   c.integrate_dht_ops + 1, c.produce_dht_ops + 1⟩

/-- State of a family of `InitialQueueTriggers` clones sharing one run-once
guard.  `clones.get i = true` means clone `i` still holds
`init = Some(Arc<Once>)`; `once_completed` is the shared `Once`'s state. -/
structure BootstrapState where
  clones : List Bool
  once_completed : Bool
  counts : TriggerCallCounts
deriving DecidableEq

/-- The state right after `InitialQueueTriggers::new` plus `n - 1` clones:
every clone holds the guard, the shared `Once` has not run, nothing fired. -/
def mkBootstrap (n : Nat) : BootstrapState :=
  ⟨List.replicate n true, false, TriggerCallCounts.zero⟩

/-- `InitialQueueTriggers::initialize_workflows` invoked on clone `i`:
`self.init.take()` empties the clone's own `Option`; if it was `Some`, the
shared `Once::call_once` runs the five-trigger fan-out exactly when the
`Once` has not completed yet, and marks it completed.  An out-of-range `i`
is a no-op (`getD`/`set` out of range). -/
def initWorkflows (i : Nat) (st : BootstrapState) : BootstrapState :=
  if st.clones.getD i false then
    { clones := st.clones.set i false
      once_completed := true
      counts := if st.once_completed then st.counts else st.counts.fire_all }
  else st

/-- A sequence of `initialize_workflows` calls, each naming the clone it is
invoked on. -/
def runCalls (calls : List Nat) (st : BootstrapState) : BootstrapState :=
  calls.foldl (fun s i => initWorkflows i s) st

/-! ## Concrete stores used as witnesses and counterexamples -/

/-- A sample header (not a `CreateLink`). -/
def exHeader : Header := Header.Other 0

/-- A sample signed header with hash 0. -/
def exShh : SignedHeaderHashed := ⟨exHeader, 0⟩

/-- An element store holding nothing. -/
def emptyElementBuf : ElementBuf := ⟨fun _ => none, fun _ => none⟩

/-- A metadata store holding nothing. -/
def emptyMetadataBuf : MetadataBuf := ⟨fun _ => [], fun _ => [], fun _ => []⟩

/-- An element store holding exactly the sample header under hash 0. -/
def shhBuf : ElementBuf :=
  ⟨fun h => if h = 0 then some exShh else none, fun _ => none⟩

/-- A workspace whose only content is the sample header in the pending
element tier. -/
def wsPendingOnly : SysValidationWorkspace :=
  ⟨emptyElementBuf, emptyElementBuf, shhBuf,
   emptyMetadataBuf, emptyMetadataBuf, emptyMetadataBuf⟩

/-- A workspace holding the sample header in all three element tiers. -/
def wsAllTiers : SysValidationWorkspace :=
  ⟨shhBuf, shhBuf, shhBuf, emptyMetadataBuf, emptyMetadataBuf, emptyMetadataBuf⟩

/-- A network that holds nothing. -/
def emptyNetwork : Network := ⟨fun _ => none, fun _ => none⟩

/-! ## C1 — header present only in the pending tier, CheckLevel::Proof -/

/-- C1 counterexample: with header hash 0 present only in the pending element
tier, `check_holding_header_all` at `CheckLevel::Proof` returns
`Ok(PendingValidation(H))` — it does not fail with `NotHoldingDep(H)` as the
claim states. -/
theorem c1_counterexample :
    check_holding_header_all 0 wsPendingOnly emptyNetwork CheckLevel.Proof
      = Except.ok (Dependency.PendingValidation exShh) ∧
    check_holding_header_all 0 wsPendingOnly emptyNetwork CheckLevel.Proof
      ≠ Except.error (ValidationOutcome.NotHoldingDep 0) :=
  ⟨rfl, fun h => Except.noConfusion h⟩

/-- C1 (amended): a header absent from vault and judged resolves to
`Ok(PendingValidation(H))` at `CheckLevel::Proof` when present in pending,
and fails `NotHoldingDep(H)` only when absent from all three tiers. -/
theorem c1_pending_tier (hash : HeaderHash) (ws : SysValidationWorkspace)
    (network : Network)
    (hv : ws.element_vault.get_header hash = none)
    (hj : ws.element_judged.get_header hash = none) :
    (∀ sh, ws.element_pending.get_header hash = some sh →
        check_holding_header_all hash ws network CheckLevel.Proof
          = Except.ok (Dependency.PendingValidation sh)) ∧
    (ws.element_pending.get_header hash = none →
        check_holding_header_all hash ws network CheckLevel.Proof
          = Except.error (ValidationOutcome.NotHoldingDep hash)) := by
  constructor
  · intro sh hp
    simp [check_holding_header_all, check_holding_header_inner,
      check_holding_step, check_holding_header, hv, hj, hp]
  · intro hp
    simp [check_holding_header_all, check_holding_header_inner,
      check_holding_step, check_holding_header, hv, hj, hp]

/-- C1 witness: the amended theorem applied to the concrete pending-only
workspace. -/
theorem c1_witness :
    wsPendingOnly.element_vault.get_header 0 = none ∧
    wsPendingOnly.element_judged.get_header 0 = none ∧
    ((∀ sh, wsPendingOnly.element_pending.get_header 0 = some sh →
        check_holding_header_all 0 wsPendingOnly emptyNetwork CheckLevel.Proof
          = Except.ok (Dependency.PendingValidation sh)) ∧
     (wsPendingOnly.element_pending.get_header 0 = none →
        check_holding_header_all 0 wsPendingOnly emptyNetwork CheckLevel.Proof
          = Except.error (ValidationOutcome.NotHoldingDep 0))) :=
  ⟨rfl, rfl, c1_pending_tier 0 wsPendingOnly emptyNetwork rfl rfl⟩

/-! ## C2 — vault hit wins at CheckLevel::Proof -/

/-- C2: whenever the vault element store holds the header, a
`CheckLevel::Proof` lookup returns `Proof` with that header — regardless of
the judged and pending tiers' contents — and never `PendingValidation`. -/
theorem c2_vault_precedence (hash : HeaderHash) (ws : SysValidationWorkspace)
    (network : Network) (sh : SignedHeaderHashed)
    (hv : ws.element_vault.get_header hash = some sh) :
    check_holding_header_all hash ws network CheckLevel.Proof
      = Except.ok (Dependency.Proof sh) ∧
    ∀ f, check_holding_header_all hash ws network CheckLevel.Proof
      ≠ Except.ok (Dependency.PendingValidation f) := by
  have h1 : check_holding_header_all hash ws network CheckLevel.Proof
      = Except.ok (Dependency.Proof sh) := by
    simp [check_holding_header_all, check_holding_header_inner,
      check_holding_step, check_holding_header, hv]
  refine ⟨h1, ?_⟩
  intro f hcontra
  rw [h1] at hcontra
  simp at hcontra

/-- C2 witness: the theorem applied to a workspace holding the header in all
three tiers — the result is still `Proof`. -/
theorem c2_witness :
    wsAllTiers.element_vault.get_header 0 = some exShh ∧
    (check_holding_header_all 0 wsAllTiers emptyNetwork CheckLevel.Proof
      = Except.ok (Dependency.Proof exShh) ∧
     ∀ f, check_holding_header_all 0 wsAllTiers emptyNetwork CheckLevel.Proof
      ≠ Except.ok (Dependency.PendingValidation f)) :=
  ⟨rfl, c2_vault_precedence 0 wsAllTiers emptyNetwork exShh rfl⟩

/-! ## Channel lemmas -/

/-- Draining an open channel always ends in `Ok(())`. -/
theorem listen_drain_open (n : Nat) : listen_drain n false = Except.ok () := by
  induction n with
  | zero => rfl
  | succ n ih => simpa [listen_drain] using ih

/-- Draining a channel whose senders are gone ends in the closed error. -/
theorem listen_drain_closed (n : Nat) :
    listen_drain n true = Except.error QueueTriggerClosedError.mk := by
  induction n with
  | zero => rfl
  | succ n ih => simpa [listen_drain] using ih

/-- `listen` on an open channel with at least one queued signal resolves with
`Ok(())` and leaves the queue empty. -/
theorem listen_open_pos (s : ChannelState) (hq : 0 < s.queue)
    (hc : s.senders_closed = false) :
    listen s = some (Except.ok (), { s with queue := 0 }) := by
  rcases s with ⟨cap, q, sc, rc⟩
  simp only at hq hc
  subst hc
  cases q with
  | zero => omega
  | succ m => simp [listen, listen_drain_open]

/-- `trigger` never shrinks the queue. -/
theorem trigger_queue_le (s : ChannelState) : s.queue ≤ (trigger s).queue := by
  unfold trigger
  split
  · exact le_refl _
  · split
    · exact le_refl _
    · exact Nat.le_succ _

/-- `trigger` changes only the queue length. -/
theorem trigger_fields (s : ChannelState) :
    (trigger s).cap = s.cap ∧ (trigger s).senders_closed = s.senders_closed ∧
      (trigger s).receiver_closed = s.receiver_closed := by
  unfold trigger
  split
  · exact ⟨rfl, rfl, rfl⟩
  · split
    · exact ⟨rfl, rfl, rfl⟩
    · exact ⟨rfl, rfl, rfl⟩

/-- `triggerN` changes only the queue length, and never shrinks it. -/
theorem triggerN_fields (n : Nat) (s : ChannelState) :
    (triggerN n s).cap = s.cap ∧ (triggerN n s).senders_closed = s.senders_closed ∧
      (triggerN n s).receiver_closed = s.receiver_closed ∧
      s.queue ≤ (triggerN n s).queue := by
  induction n generalizing s with
  | zero => exact ⟨rfl, rfl, rfl, le_refl _⟩
  | succ n ih =>
    have h := ih (trigger s)
    have hf := trigger_fields s
    have hq := trigger_queue_le s
    exact ⟨h.1.trans hf.1, h.2.1.trans hf.2.1, h.2.2.1.trans hf.2.2,
      le_trans hq h.2.2.2⟩

/-! ## C3 — the race between trigger and shutdown -/

/-- An open channel with one queued signal and capacity one. -/
def readyChannel : ChannelState := ⟨1, 1, false, false⟩

/-- C3 counterexample: with a trigger signal queued and the shutdown signal
ready at the same time, `next_job_or_exit` returns `Job::Run` — the listen
future is polled first by `futures::future::select` — not `Job::Shutdown` as
the claim states. -/
theorem c3_counterexample :
    Option.map Prod.fst (next_job_or_exit readyChannel true) = some Job.Run := rfl

/-- C3 (amended): when the trigger future is ready (a signal is queued, the
channel open), the stage runs a pass regardless of the shutdown signal's
readiness; shutdown wins only when the listen future is not ready or
resolves closed. -/
theorem c3_trigger_wins_race (s : ChannelState) (stop_ready : Bool)
    (hq : 0 < s.queue) (hc : s.senders_closed = false) :
    Option.map Prod.fst (next_job_or_exit s stop_ready) = some Job.Run := by
  rw [next_job_or_exit, listen_open_pos s hq hc]
  rfl

/-- C3 witness: the amended theorem at the concrete ready channel with the
shutdown signal ready. -/
theorem c3_witness :
    0 < readyChannel.queue ∧ readyChannel.senders_closed = false ∧
    Option.map Prod.fst (next_job_or_exit readyChannel true) = some Job.Run :=
  ⟨by decide, by decide, c3_trigger_wins_race readyChannel true (by decide) (by decide)⟩

/-! ## C4 — trigger coalescing -/

/-- C4: starting from an empty open channel of any positive capacity, after
any N ≥ 1 `trigger()` calls a single `listen()` resolves with `Ok(())` and
drains the whole queue; a further `listen()` on the drained channel suspends
— so the N triggers collapse into exactly one successful wakeup. -/
theorem c4_coalescing (cap N : Nat) (hcap : 0 < cap) (hN : 0 < N) :
    listen (triggerN N ⟨cap, 0, false, false⟩)
      = some (Except.ok (), (⟨cap, 0, false, false⟩ : ChannelState)) ∧
    listen (⟨cap, 0, false, false⟩ : ChannelState) = none := by
  refine ⟨?_, by simp [listen]⟩
  obtain ⟨M, rfl⟩ : ∃ M, N = M + 1 := ⟨N - 1, by omega⟩
  have hstep : trigger ⟨cap, 0, false, false⟩ = ⟨cap, 1, false, false⟩ := by
    simp only [trigger]
    rw [if_neg (by simp), if_neg (by omega)]
  have hfields := triggerN_fields M ⟨cap, 1, false, false⟩
  rw [show triggerN (M + 1) ⟨cap, 0, false, false⟩
        = triggerN M (trigger ⟨cap, 0, false, false⟩) from rfl, hstep]
  have hqpos : 0 < (triggerN M ⟨cap, 1, false, false⟩).queue :=
    Nat.lt_of_lt_of_le Nat.zero_lt_one hfields.2.2.2
  rw [listen_open_pos _ hqpos hfields.2.1]
  have hupd : ({ triggerN M ⟨cap, 1, false, false⟩ with queue := 0 } : ChannelState)
      = ⟨cap, 0, false, false⟩ := by
    rw [show ({ triggerN M ⟨cap, 1, false, false⟩ with queue := 0 } : ChannelState)
          = ⟨(triggerN M ⟨cap, 1, false, false⟩).cap, 0,
             (triggerN M ⟨cap, 1, false, false⟩).senders_closed,
             (triggerN M ⟨cap, 1, false, false⟩).receiver_closed⟩ from rfl,
       hfields.1, hfields.2.1, hfields.2.2.1]
  rw [hupd]

/-- C4 witness: three triggers into a capacity-one channel (so two of them
hit a full channel), then one `listen` succeeds and the channel is drained. -/
theorem c4_witness :
    0 < 1 ∧ 0 < 3 ∧
    (listen (triggerN 3 ⟨1, 0, false, false⟩)
      = some (Except.ok (), (⟨1, 0, false, false⟩ : ChannelState)) ∧
     listen ((⟨1, 0, false, false⟩ : ChannelState)) = none) :=
  ⟨by decide, by decide, c4_coalescing 1 3 (by decide) (by decide)⟩

/-! ## C9 — closed-channel detection -/

/-- C9: whenever every `TriggerSender` clone has been dropped, `listen`
resolves (it never suspends) and its result is the closed-channel error —
whether or not signals were still queued. -/
theorem c9_closed_detection (s : ChannelState) (h : s.senders_closed = true) :
    listen s = some (Except.error QueueTriggerClosedError.mk,
      { s with queue := 0 }) := by
  rcases s with ⟨cap, q, sc, rc⟩
  simp only at h
  subst h
  cases q with
  | zero => simp [listen]
  | succ m => simp [listen, listen_drain_closed]

/-- C9 witness: a closed channel with two queued signals still resolves
closed. -/
theorem c9_witness :
    (⟨1, 2, true, false⟩ : ChannelState).senders_closed = true ∧
    listen (⟨1, 2, true, false⟩ : ChannelState)
      = some (Except.error QueueTriggerClosedError.mk,
          (⟨1, 0, true, false⟩ : ChannelState)) :=
  ⟨rfl, c9_closed_detection ⟨1, 2, true, false⟩ rfl⟩

/-! ## C5 — idempotent bootstrap -/

/-- Invariant tying the shared `Once` to the fired-trigger counts: before the
fan-out has run nothing has fired and every clone still holds its guard;
after it has run, every stage trigger has fired exactly once. -/
def BootInv (st : BootstrapState) : Prop :=
  (st.once_completed = false →
      st.counts = TriggerCallCounts.zero ∧ ∀ b ∈ st.clones, b = true) ∧
  (st.once_completed = true → st.counts = TriggerCallCounts.ones)

/-- The freshly constructed trigger set satisfies the invariant. -/
theorem boot_inv_init (n : Nat) : BootInv (mkBootstrap n) := by
  refine ⟨fun _ => ⟨rfl, fun b hb => ?_⟩, fun h => by simp [mkBootstrap] at h⟩
  exact List.eq_of_mem_replicate hb

/-- One `initialize_workflows` call preserves the invariant. -/
theorem boot_inv_step (st : BootstrapState) (i : Nat) (h : BootInv st) :
    BootInv (initWorkflows i st) := by
  unfold initWorkflows
  split
  · refine ⟨fun hfalse => by simp at hfalse, fun _ => ?_⟩
    cases honce : st.once_completed with
    | true => simpa [honce] using h.2 honce
    | false =>
      have hz := (h.1 honce).1
      simp only [honce, if_false, Bool.false_eq_true]
      rw [hz]
      rfl
  · exact h

/-- The shared `Once` never reverts to incomplete. -/
theorem boot_once_mono (st : BootstrapState) (i : Nat)
    (h : st.once_completed = true) :
    (initWorkflows i st).once_completed = true := by
  unfold initWorkflows
  split
  · rfl
  · exact h

/-- A call on a clone that still exists completes the shared `Once`. -/
theorem boot_first (st : BootstrapState) (i : Nat) (h : BootInv st)
    (hi : i < st.clones.length) :
    (initWorkflows i st).once_completed = true := by
  unfold initWorkflows
  split
  · rfl
  · rename_i hguard
    cases honce : st.once_completed with
    | true => rfl
    | false =>
      have hall := (h.1 honce).2
      have hget : st.clones[i]?.getD false = true := by
        rw [List.getElem?_eq_getElem hi]
        simpa using hall _ (List.getElem_mem hi)
      simp [hget] at hguard

/-- Any sequence of calls preserves the invariant and `Once` completion. -/
theorem boot_runCalls_preserves (calls : List Nat) (st : BootstrapState)
    (h : BootInv st) :
    BootInv (runCalls calls st) ∧
      (st.once_completed = true → (runCalls calls st).once_completed = true) := by
  induction calls generalizing st with
  | nil => exact ⟨h, fun x => x⟩
  | cons c rest ih =>
    have h1 := boot_inv_step st c h
    have h2 := ih (initWorkflows c st) h1
    exact ⟨h2.1, fun ho => h2.2 (boot_once_mono st c ho)⟩

/-- C5: for any nonempty sequence of `initialize_workflows` calls on any of
the `n` clones sharing the run-once guard, each of the five stage triggers
fires exactly once in total — every call after the first is a no-op on the
counts. -/
theorem c5_idempotent_bootstrap (n : Nat) (calls : List Nat)
    (hne : calls ≠ []) (hvalid : ∀ i ∈ calls, i < n) :
    (runCalls calls (mkBootstrap n)).counts = TriggerCallCounts.ones := by
  obtain ⟨c, rest, rfl⟩ := List.exists_cons_of_ne_nil hne
  have hinv0 : BootInv (mkBootstrap n) := boot_inv_init n
  have hc : c < n := hvalid c (List.mem_cons_self c rest)
  have hlen : (mkBootstrap n).clones.length = n := by simp [mkBootstrap]
  have honce : (initWorkflows c (mkBootstrap n)).once_completed = true :=
    boot_first _ c hinv0 (by rw [hlen]; exact hc)
  have hinv1 : BootInv (initWorkflows c (mkBootstrap n)) :=
    boot_inv_step _ c hinv0
  have h := boot_runCalls_preserves rest (initWorkflows c (mkBootstrap n)) hinv1
  exact (h.1).2 (h.2 honce)

/-- C5 witness: two clones, three calls (one clone called twice) — every
stage trigger fires exactly once. -/
theorem c5_witness :
    ([0, 1, 0] : List Nat) ≠ [] ∧ (∀ i ∈ ([0, 1, 0] : List Nat), i < 2) ∧
    (runCalls [0, 1, 0] (mkBootstrap 2)).counts = TriggerCallCounts.ones :=
  ⟨by decide, by decide, c5_idempotent_bootstrap 2 [0, 1, 0] (by decide) (by decide)⟩

/-! ## C6 — network fallback at CheckLevel::Claim -/

/-- A workspace with all six tier stores empty. -/
def emptyWorkspace : SysValidationWorkspace :=
  ⟨emptyElementBuf, emptyElementBuf, emptyElementBuf,
   emptyMetadataBuf, emptyMetadataBuf, emptyMetadataBuf⟩

/-- A network holding the sample header under hash 0. -/
def hitNetwork : Network :=
  ⟨fun h => if h = 0 then some exShh else none, fun _ => none⟩

/-- The `CheckLevel::Proof` tier walk either succeeds or fails with
`NotHoldingDep` of the looked-up hash — never any other error. -/
theorem check_holding_header_inner_cases (hash : HeaderHash)
    (ws : SysValidationWorkspace) :
    check_holding_header_inner hash ws
        = Except.error (ValidationOutcome.NotHoldingDep hash) ∨
      ∃ d, check_holding_header_inner hash ws = Except.ok d := by
  unfold check_holding_header_inner check_holding_step check_holding_header
  cases ws.element_vault.get_header hash <;>
    cases ws.element_judged.get_header hash <;>
      cases ws.element_pending.get_header hash <;> simp

/-- C6: with the fact absent from all three local tiers, a
`CheckLevel::Claim` lookup returns `Claim` exactly when the network returns
a value and fails `DepMissingFromDht` exactly when it returns nothing;
`DepMissingFromDht` is never produced at `CheckLevel::Proof`. -/
theorem c6_claim_fallback (hash : HeaderHash) (ws : SysValidationWorkspace)
    (network : Network)
    (hv : ws.element_vault.get_header hash = none)
    (hj : ws.element_judged.get_header hash = none)
    (hp : ws.element_pending.get_header hash = none) :
    (∀ sh, network.retrieve_header hash = some sh →
        check_holding_header_all hash ws network CheckLevel.Claim
          = Except.ok (Dependency.Claim sh)) ∧
    (network.retrieve_header hash = none →
        check_holding_header_all hash ws network CheckLevel.Claim
          = Except.error (ValidationOutcome.DepMissingFromDht hash)) ∧
    (∀ (hash2 : HeaderHash) (ws2 : SysValidationWorkspace) (net2 : Network)
        (e : AnyDhtHash),
        check_holding_header_all hash2 ws2 net2 CheckLevel.Proof
          ≠ Except.error (ValidationOutcome.DepMissingFromDht e)) := by
  refine ⟨?_, ?_, ?_⟩
  · intro sh hn
    simp [check_holding_header_all, check_header_exists, check_holding_step,
      check_holding_header, hv, hj, hp, hn]
  · intro hn
    simp [check_holding_header_all, check_header_exists, check_holding_step,
      check_holding_header, hv, hj, hp, hn]
  · intro hash2 ws2 net2 e hcontra
    have hdisp : check_holding_header_all hash2 ws2 net2 CheckLevel.Proof
        = check_holding_header_inner hash2 ws2 := rfl
    rcases check_holding_header_inner_cases hash2 ws2 with h | ⟨d, h⟩
    · rw [hdisp, h] at hcontra
      simp at hcontra
    · rw [hdisp, h] at hcontra
      simp at hcontra

/-- C6 witness: the theorem at the concrete empty workspace, with a network
that does hold the header — the lookup returns `Claim`. -/
theorem c6_witness :
    emptyWorkspace.element_vault.get_header 0 = none ∧
    emptyWorkspace.element_judged.get_header 0 = none ∧
    emptyWorkspace.element_pending.get_header 0 = none ∧
    ((∀ sh, hitNetwork.retrieve_header 0 = some sh →
        check_holding_header_all 0 emptyWorkspace hitNetwork CheckLevel.Claim
          = Except.ok (Dependency.Claim sh)) ∧
     (hitNetwork.retrieve_header 0 = none →
        check_holding_header_all 0 emptyWorkspace hitNetwork CheckLevel.Claim
          = Except.error (ValidationOutcome.DepMissingFromDht 0)) ∧
     (∀ (hash2 : HeaderHash) (ws2 : SysValidationWorkspace) (net2 : Network)
        (e : AnyDhtHash),
        check_holding_header_all hash2 ws2 net2 CheckLevel.Proof
          ≠ Except.error (ValidationOutcome.DepMissingFromDht e))) :=
  ⟨rfl, rfl, rfl, c6_claim_fallback 0 emptyWorkspace hitNetwork rfl rfl rfl⟩

/-! ## C7 — confidence_min and the link-add composite check -/

/-- A link-add header (`CreateLink` with base 1, zome 2, tag 3) under hash 0. -/
def linkShh : SignedHeaderHashed := ⟨Header.CreateLink 1 2 3, 0⟩

/-- An element store holding the link-add header under hash 0. -/
def linkVaultBuf : ElementBuf :=
  ⟨fun h => if h = 0 then some linkShh else none, fun _ => none⟩

/-- A metadata store holding the link only under its full key. -/
def linkPendingMeta : MetadataBuf :=
  ⟨fun _ => [], fun _ => [], fun k => if k = ⟨1, 2, 3, 0⟩ then [5] else []⟩

/-- A workspace where the link-add header leg resolves `Proof` (vault) but
its link metadata exists only in the pending tier. -/
def wsLinkAdd : SysValidationWorkspace :=
  ⟨linkVaultBuf, emptyElementBuf, emptyElementBuf,
   emptyMetadataBuf, emptyMetadataBuf, linkPendingMeta⟩

/-- C7: `Dependency::min` returns the weaker of the two confidence tags
(`rank`: Proof 0 < Claim 1 < PendingValidation 2) paired with the first
operand's payload; and in the link-add composite check, a `Proof` header leg
combined with a metadata leg found only in pending yields
`PendingValidation`. -/
theorem c7_confidence_min (a b : Dependency SignedHeaderHashed)
    (ws : SysValidationWorkspace) (hash : HeaderHash) (sh : SignedHeaderHashed)
    (base zomeId tag : Nat)
    (hhdr : ws.element_vault.get_header hash = some sh)
    (hcl : sh.header = Header.CreateLink base zomeId tag)
    (hmv : ws.meta_vault.get_links_all ⟨base, zomeId, tag, hash⟩ = [])
    (hmj : ws.meta_judged.get_links_all ⟨base, zomeId, tag, hash⟩ = [])
    (hmp : ws.meta_pending.get_links_all ⟨base, zomeId, tag, hash⟩ ≠ []) :
    ((a.min b).rank = Nat.max a.rank b.rank ∧
      (a.min b).as_inner = a.as_inner) ∧
    check_holding_link_add_inner hash ws
      = Except.ok (Dependency.PendingValidation sh) := by
  constructor
  · cases a <;> cases b <;>
      simp [Dependency.min, Dependency.rank, Dependency.as_inner]
  · have hinner : check_holding_header_inner hash ws
        = Except.ok (Dependency.Proof sh) := by
      simp [check_holding_header_inner, check_holding_step,
        check_holding_header, hhdr]
    have hmeta : check_link_in_metadata_all
        (Dependency.Proof sh).as_inner.header hash ws
        = Except.ok (Dependency.PendingValidation ()) := by
      cases hl : ws.meta_pending.get_links_all ⟨base, zomeId, tag, hash⟩ with
      | nil => exact absurd hl hmp
      | cons x xs =>
        simp [Dependency.as_inner, check_link_in_metadata_all,
          check_holding_step, check_link_in_metadata, hcl,
          Header.toCreateLink, hmv, hmj, hl]
    unfold check_holding_link_add_inner
    rw [hinner]
    simp [hmeta, Dependency.min]

/-- C7 witness: the theorem at a concrete graded pair and the concrete
link-add workspace — the composite result is `PendingValidation`. -/
theorem c7_witness :
    wsLinkAdd.element_vault.get_header 0 = some linkShh ∧
    linkShh.header = Header.CreateLink 1 2 3 ∧
    wsLinkAdd.meta_vault.get_links_all ⟨1, 2, 3, 0⟩ = [] ∧
    wsLinkAdd.meta_judged.get_links_all ⟨1, 2, 3, 0⟩ = [] ∧
    wsLinkAdd.meta_pending.get_links_all ⟨1, 2, 3, 0⟩ ≠ [] ∧
    (((Dependency.Proof exShh).min (Dependency.PendingValidation exShh)).rank
        = Nat.max (Dependency.Proof exShh).rank
            (Dependency.PendingValidation exShh).rank ∧
      ((Dependency.Proof exShh).min (Dependency.PendingValidation exShh)).as_inner
        = (Dependency.Proof exShh).as_inner) ∧
    check_holding_link_add_inner 0 wsLinkAdd
      = Except.ok (Dependency.PendingValidation linkShh) := by
  have h := c7_confidence_min (Dependency.Proof exShh)
    (Dependency.PendingValidation exShh) wsLinkAdd 0 linkShh 1 2 3
    rfl rfl rfl rfl (by decide)
  exact ⟨rfl, rfl, rfl, rfl, by decide, h.1, h.2⟩

/-! ## C8 — metadata misses are always NotHoldingDep -/

/-- C8: each of the three metadata cross-reference lookups reports a missing
exact-key match as `NotHoldingDep` of the looked-up hash — the same variant
as element absence — and no other error (for the link lookup, given a header
that is a `CreateLink`). -/
theorem c8_metadata_miss (author prev entry_hash header_hash : Nat)
    (link_add_hash base zomeId tag : Nat) (mv : MetadataBuf)
    (ha : prev ∉ mv.get_activity author)
    (hhm : header_hash ∉ mv.get_headers entry_hash)
    (hl : mv.get_links_all ⟨base, zomeId, tag, link_add_hash⟩ = []) :
    check_prev_header_in_metadata author prev mv
      = Except.error (ValidationOutcome.NotHoldingDep prev) ∧
    check_header_in_metadata entry_hash header_hash mv
      = Except.error (ValidationOutcome.NotHoldingDep header_hash) ∧
    check_link_in_metadata (Header.CreateLink base zomeId tag) link_add_hash mv
      = Except.error (ValidationOutcome.NotHoldingDep link_add_hash) := by
  refine ⟨?_, ?_, ?_⟩
  · have hf : (mv.get_activity author).find? (fun a => prev = a) = none := by
      rw [List.find?_eq_none]
      intro x hx
      simp only [decide_eq_true_eq]
      intro hcontra
      exact ha (by rw [hcontra]; exact hx)
    simp [check_prev_header_in_metadata, hf]
  · have hf : (mv.get_headers entry_hash).find? (fun h => h = header_hash) = none := by
      rw [List.find?_eq_none]
      intro x hx
      simp only [decide_eq_true_eq]
      intro hcontra
      exact hhm (by rw [← hcontra]; exact hx)
    simp [check_header_in_metadata, hf]
  · simp [check_link_in_metadata, Header.toCreateLink, hl]

/-- C8 witness: the theorem at the concrete empty metadata store. -/
theorem c8_witness :
    (0 : Nat) ∉ emptyMetadataBuf.get_activity 0 ∧
    (0 : Nat) ∉ emptyMetadataBuf.get_headers 0 ∧
    emptyMetadataBuf.get_links_all ⟨1, 2, 3, 0⟩ = [] ∧
    (check_prev_header_in_metadata 0 0 emptyMetadataBuf
      = Except.error (ValidationOutcome.NotHoldingDep 0) ∧
     check_header_in_metadata 0 0 emptyMetadataBuf
      = Except.error (ValidationOutcome.NotHoldingDep 0) ∧
     check_link_in_metadata (Header.CreateLink 1 2 3) 0 emptyMetadataBuf
      = Except.error (ValidationOutcome.NotHoldingDep 0)) :=
  ⟨by decide, by decide, rfl,
   c8_metadata_miss 0 0 0 0 0 1 2 3 emptyMetadataBuf (by decide) (by decide) rfl⟩

/-! ## C10 — element checks require an accessible entry -/

/-- An element whose entry payload is not accessible. -/
def elNoEntry : Element := ⟨exShh, none⟩

/-- An element store holding that element under hash 0. -/
def evHidden : ElementBuf :=
  ⟨fun _ => none, fun h => if h = 0 then some elNoEntry else none⟩

/-- C10: `check_holding_element` succeeds only when the element is present
and its entry payload is accessible; an element found without an accessible
entry fails `NotHoldingDep` of the header hash — exactly like complete
absence. -/
theorem c10_element_entry_required (hash : HeaderHash) (ev : ElementBuf) :
    (∀ el, check_holding_element hash ev = Except.ok el →
        ev.get_element hash = some el ∧ el.entry.isSome = true) ∧
    (∀ el, ev.get_element hash = some el → el.entry = none →
        check_holding_element hash ev
          = Except.error (ValidationOutcome.NotHoldingDep hash)) ∧
    (ev.get_element hash = none →
        check_holding_element hash ev
          = Except.error (ValidationOutcome.NotHoldingDep hash)) := by
  refine ⟨?_, ?_, ?_⟩
  · intro el hok
    cases hg : ev.get_element hash with
    | none => simp [check_holding_element, hg] at hok
    | some el' =>
      cases he : el'.entry with
      | none => simp [check_holding_element, hg, he] at hok
      | some v =>
        simp [check_holding_element, hg, he] at hok
        subst hok
        exact ⟨rfl, by simp [he]⟩
  · intro el hg he
    simp [check_holding_element, hg, he]
  · intro hg
    simp [check_holding_element, hg]

/-- C10 witness: the theorem at the concrete store holding an element with a
hidden entry — the check fails `NotHoldingDep` despite the element being
present. -/
theorem c10_witness :
    evHidden.get_element 0 = some elNoEntry ∧ elNoEntry.entry = none ∧
    check_holding_element 0 evHidden
      = Except.error (ValidationOutcome.NotHoldingDep 0) :=
  ⟨rfl, rfl, (c10_element_entry_required 0 evHidden).2.1 elNoEntry rfl rfl⟩

end Holochain
